import Mathlib

/-!
Verification of the Data-Science-Infinity model-building scripts
(`201_Logistic_Regression_Basic.py` and `204_Classification_Tree_Advanced.py`).

Both scripts are straight-line Python: a fixed sequence of statements, each a
call into pandas / scikit-learn / feature-engine / matplotlib.  We embed each
script as the list of its executed statements, in source order, with the
`for depth in max_depth_list` loop of the tree script unrolled over its
constant range `range(1, 15)`.  Each statement records its kind (which library
operation it performs, with the literal arguments that matter: the model type,
the `random_state` argument, the `max_depth` argument), the program variables
it assigns and the program variables it reads.  Statement-level claims
(stage ordering, fit counts, which computed values reach a print/plot,
seeding of every random call, absence of error handling) are settled over
these lists.  Library calls whose input/output behaviour the claims constrain
(train/test splitting, the confusion matrix, classifier prediction, one-hot
encoding, and the `max`/`list.index` depth selection) are modelled as Lean
functions and reasoned about separately below.
-/

/-- The Python variables assigned in the two scripts. -/
inductive Var where
  | my_df | data_for_model
  | X | y | X_train | X_test | y_train | y_test
  | clf | ohe_enc
  | y_pred | y_pred_prob | y_pred_class
  | conf_matrix
  | max_depth_list | accuracy_scores | accuracy
  | max_accuracy | max_accuracy_idx | optimal_depth
  | tree
deriving DecidableEq, Repr

/-- The model classes instantiated in the scripts. -/
inductive ModelType where
  | logisticRegression
  | decisionTree
deriving DecidableEq, Repr

/-- The evaluation metrics computed in the scripts (`sklearn.metrics`). -/
inductive MetricName where
  | accuracy | precision | recall | f1 | confusion
deriving DecidableEq, Repr

/-- Statement kinds: one constructor per category of library call appearing in
the two scripts, carrying the literal arguments the claims depend on.
`tryExcept` is the kind a Python `try`/`except` handler would have; neither
script contains one, which is what claim C7 checks. -/
inductive Kind where
  | loadCSV
  | loadPickle
  | dropCols
  | selectCol
  | shuffle (rs : Option Nat)
  | valueCounts
  | isnaSum
  | dropna
  | trainTestSplit (rs : Option Nat)
  | oheConstruct
  | oheFitTransform
  | oheTransform
  | modelConstruct (m : ModelType) (rs : Option Nat) (maxDepth : Option Nat)
  | fit (m : ModelType)
  | predict
  | predictProba
  | metric (m : MetricName)
  | printOut
  | plot
  | appendStmt
  | maxOf
  | listIndex
  | listGet
  | tryExcept
deriving DecidableEq, Repr

/-- One executed Python statement: its kind, the variables it assigns
(`defs`) and the variables it reads (`uses`). -/
structure Stmt where
  kind : Kind
  defs : List Var
  uses : List Var
deriving DecidableEq, Repr

/-- The statements of `201_Logistic_Regression_Basic.py`, in execution order.
Line numbers of the source file are given on each entry. -/
def run201 : List Stmt := [
  ⟨.loadCSV, [.my_df], []⟩,                                                -- line 15
  ⟨.dropCols, [.X], [.my_df]⟩,                                             -- line 19
  ⟨.selectCol, [.y], [.my_df]⟩,                                            -- line 20
  ⟨.trainTestSplit (some 42), [.X_train, .X_test, .y_train, .y_test], [.X, .y]⟩,  -- line 24
  ⟨.modelConstruct .logisticRegression (some 42) none, [.clf], []⟩,        -- line 28
  ⟨.fit .logisticRegression, [.clf], [.clf, .X_train, .y_train]⟩,          -- line 32
  ⟨.predict, [.y_pred], [.clf, .X_test]⟩,                                  -- line 36
  ⟨.metric .accuracy, [], [.y_test, .y_pred]⟩,                             -- line 37 (bare expression)
  ⟨.predictProba, [.y_pred_prob], [.clf, .X_test]⟩,                        -- line 39
  ⟨.metric .confusion, [.conf_matrix], [.y_test, .y_pred]⟩,                -- line 43
  ⟨.printOut, [], [.conf_matrix]⟩,                                         -- line 44
  ⟨.plot, [], []⟩,                                                         -- line 48 (style)
  ⟨.plot, [], [.conf_matrix]⟩,                                             -- line 49 (matshow)
  ⟨.plot, [], []⟩,                                                         -- lines 50-53 (labels)
  ⟨.plot, [], [.conf_matrix]⟩,                                             -- lines 54-55 (cell text)
  ⟨.plot, [], []⟩]                                                         -- line 56 (show)

/-- One iteration of the tree script's depth-search loop, body of
`for depth in max_depth_list` (lines 125-130 of the source). -/
def loopBody204 (d : Nat) : List Stmt := [
  ⟨.modelConstruct .decisionTree (some 42) (some d), [.clf], []⟩,          -- line 126
  ⟨.fit .decisionTree, [.clf], [.clf, .X_train, .y_train]⟩,                -- line 127
  ⟨.predict, [.y_pred], [.clf, .X_test]⟩,                                  -- line 128
  ⟨.metric .f1, [.accuracy], [.y_test, .y_pred]⟩,                          -- line 129
  ⟨.appendStmt, [.accuracy_scores], [.accuracy_scores, .accuracy]⟩]        -- line 130

/-- The statements of `204_Classification_Tree_Advanced.py`, in execution
order, with the depth-search loop unrolled over its constant range
`range(1, 15)`.  Line numbers of the source file are given on each entry. -/
def run204 : List Stmt :=
  [⟨.loadPickle, [.data_for_model], []⟩,                                   -- line 28
   ⟨.dropCols, [.data_for_model], [.data_for_model]⟩,                      -- line 32
   ⟨.shuffle (some 42), [.data_for_model], [.data_for_model]⟩,             -- line 36
   ⟨.valueCounts, [], [.data_for_model]⟩,                                  -- line 40 (bare expression)
   ⟨.isnaSum, [], [.data_for_model]⟩,                                      -- line 47 (bare expression)
   ⟨.dropna, [.data_for_model], [.data_for_model]⟩,                        -- line 48
   ⟨.dropCols, [.X], [.data_for_model]⟩,                                   -- line 55
   ⟨.selectCol, [.y], [.data_for_model]⟩,                                  -- line 56
   ⟨.trainTestSplit (some 42), [.X_train, .X_test, .y_train, .y_test], [.X, .y]⟩,  -- line 63
   ⟨.oheConstruct, [.ohe_enc], []⟩,                                        -- lines 70-72
   ⟨.oheFitTransform, [.X_train, .ohe_enc], [.ohe_enc, .X_train]⟩,         -- line 74
   ⟨.oheTransform, [.X_test], [.ohe_enc, .X_test]⟩,                        -- line 75
   ⟨.modelConstruct .decisionTree (some 42) (some 5), [.clf], []⟩,         -- line 82
   ⟨.fit .decisionTree, [.clf], [.clf, .X_train, .y_train]⟩,               -- line 83
   ⟨.predict, [.y_pred_class], [.clf, .X_test]⟩,                           -- line 90
   ⟨.predictProba, [.y_pred_prob], [.clf, .X_test]⟩,                       -- line 91
   ⟨.metric .confusion, [.conf_matrix], [.y_test, .y_pred_class]⟩,         -- line 95
   ⟨.plot, [], []⟩,                                                        -- line 97 (style)
   ⟨.plot, [], [.conf_matrix]⟩,                                            -- line 98 (matshow)
   ⟨.plot, [], []⟩,                                                        -- lines 99-102 (labels)
   ⟨.plot, [], [.conf_matrix]⟩,                                            -- lines 103-104 (cell text)
   ⟨.plot, [], []⟩,                                                        -- line 105 (show)
   ⟨.metric .accuracy, [], [.y_test, .y_pred_class]⟩,                      -- line 108 (bare expression)
   ⟨.metric .precision, [], [.y_test, .y_pred_class]⟩,                     -- line 111 (bare expression)
   ⟨.metric .recall, [], [.y_test, .y_pred_class]⟩,                        -- line 114 (bare expression)
   ⟨.metric .f1, [], [.y_test, .y_pred_class]⟩,                            -- line 117 (bare expression)
   ⟨.listGet, [.max_depth_list], []⟩,                                      -- line 122
   ⟨.listGet, [.accuracy_scores], []⟩]                                     -- line 123
  ++ (List.range' 1 14).flatMap loopBody204                                -- lines 125-130, depths 1..14
  ++ [⟨.maxOf, [.max_accuracy], [.accuracy_scores]⟩,                       -- line 132
   ⟨.listIndex, [.max_accuracy_idx], [.accuracy_scores, .max_accuracy]⟩,   -- line 133
   ⟨.listGet, [.optimal_depth], [.max_depth_list, .max_accuracy_idx]⟩,     -- line 134
   ⟨.plot, [], [.max_depth_list, .accuracy_scores]⟩,                       -- line 138
   ⟨.plot, [], [.optimal_depth, .max_accuracy]⟩,                           -- line 139 (scatter)
   ⟨.plot, [], [.optimal_depth, .max_accuracy]⟩,                           -- line 140 (title)
   ⟨.plot, [], []⟩,                                                        -- lines 141-144
   ⟨.plot, [], []⟩,                                                        -- line 148 (figure)
   ⟨.plot, [.tree], [.clf, .X]⟩]                                           -- lines 149-153 (plot_tree)

/-- The five pipeline stages the spec names: load, split, fit, score, plot. -/
inductive Stage where
  | load | split | fit | score | plot
deriving DecidableEq, Repr

/-- The stage, if any, a statement kind belongs to.  Metric computations
(including the confusion matrix, `sklearn.metrics.confusion_matrix`) are the
scoring stage; `plt` calls are the plotting stage. -/
def stageOf : Kind → Option Stage
  | .loadCSV => some .load
  | .loadPickle => some .load
  | .trainTestSplit _ => some .split
  | .fit _ => some .fit
  | .metric _ => some .score
  | .plot => some .plot
  | _ => none

/-- The stage that must already have run before a given stage may run. -/
def stagePred : Stage → Option Stage
  | .load => none
  | .split => some .load
  | .fit => some .split
  | .score => some .fit
  | .plot => some .score

/-- Walking the statement list with the set of stages seen so far: every
statement of a stage with a predecessor stage requires that predecessor to
have occurred strictly earlier. -/
def checkStageOrder (seen : List Stage) : List Stmt → Bool
  | [] => true
  | st :: rest =>
    match stageOf st.kind with
    | none => checkStageOrder seen rest
    | some s =>
      (match stagePred s with
       | none => true
       | some p => seen.contains p) && checkStageOrder (s :: seen) rest

/-- Every one of the five stages occurs at least once in the script. -/
def allStagesOccur (s : List Stmt) : Bool :=
  [Stage.load, .split, .fit, .score, .plot].all fun σ =>
    s.any fun st => stageOf st.kind == some σ

/-- The model type a statement fits, when it is a `.fit` call. -/
def fitModelType (st : Stmt) : Option ModelType :=
  match st.kind with
  | .fit m => some m
  | _ => none

/-- The model types fitted by a script, one entry per executed `.fit` call. -/
def fittedModels (s : List Stmt) : List ModelType :=
  s.filterMap fitModelType

/-- How many model-fitting calls a script executes. -/
def fitCount (s : List Stmt) : Nat :=
  (fittedModels s).length

/-- Statement kinds that load the input dataset. -/
def isLoadKind : Kind → Bool
  | .loadCSV => true
  | .loadPickle => true
  | _ => false

/-- Whether the script contains any error handler. -/
def hasHandler (s : List Stmt) : Bool :=
  s.any fun st => st.kind == .tryExcept

/-- In a straight-line script with no handler, an exception raised by
statement `i` terminates the run: exactly the first `i` statements have
executed. -/
def execUpToFailure (s : List Stmt) (i : Nat) : List Stmt :=
  s.take i

/-- Statement kinds belonging to a stage after loading: splitting, fitting,
scoring or plotting. -/
def isPostLoadStage (k : Kind) : Bool :=
  match stageOf k with
  | some .split => true
  | some .fit => true
  | some .score => true
  | some .plot => true
  | _ => false

/-- A failure of any dataset-loading statement leaves no split, fit, score or
plot statement executed. -/
def loadFailureAbortsAll (s : List Stmt) : Bool :=
  (List.range s.length).all fun i =>
    match s.get? i with
    | some st =>
      !isLoadKind st.kind || (execUpToFailure s i).all fun st2 => !isPostLoadStage st2.kind
    | none => true

/-- The `random_state` arguments of the script's randomness-consuming calls
(`shuffle`, `train_test_split`, model constructors), in execution order;
`none` would mean the call was left unseeded. -/
def randomSeedArgs (s : List Stmt) : List (Option Nat) :=
  s.filterMap fun st =>
    match st.kind with
    | .shuffle rs => some rs
    | .trainTestSplit rs => some rs
    | .modelConstruct _ rs _ => some rs
    | _ => none

/-- The seed a library call actually draws from: its `random_state` argument
when given, otherwise the ambient global random state. -/
def effSeed (rs : Option Nat) (ambient : Nat) : Nat :=
  rs.getD ambient

/-- Running the script's randomness-consuming calls in order: `prim k` is the
(deterministic) effect of one seeded library call under seed `k`, threaded
through the pipeline state. -/
def runSeeded {α : Type} (prim : Nat → α → α) (calls : List (Option Nat))
    (ambient : Nat) (x : α) : α :=
  calls.foldl (fun acc rs => prim (effSeed rs ambient) acc) x

/-- The variables assigned by statement `i` (empty beyond the script). -/
def defsAt (s : List Stmt) (i : Nat) : List Var :=
  ((s.get? i).map Stmt.defs).getD []

/-- The variables read by statement `i` (empty beyond the script). -/
def usesAt (s : List Stmt) (i : Nat) : List Var :=
  ((s.get? i).map Stmt.uses).getD []

/-- Statement kinds that emit to the user: `print` and `plt` calls. -/
def isOutputKind : Kind → Bool
  | .printOut => true
  | .plot => true
  | _ => false

/-- Whether statement `i` is a print/plot statement. -/
def outputAt (s : List Stmt) (i : Nat) : Bool :=
  ((s.get? i).map fun st => isOutputKind st.kind).getD false

/-- The index of the last statement before `j` assigning variable `v`: the
definition of `v` that reaches statement `j`. -/
def lastDefBefore (s : List Stmt) (v : Var) (j : Nat) : Option Nat :=
  (s.take j).enum.foldl
    (fun acc p => if p.2.defs.contains v then some p.1 else acc) none

/-- The value produced by statement `i` flows directly into statement `j`:
`j` reads a variable whose reaching definition at `j` is statement `i`. -/
def flowsTo (s : List Stmt) (i j : Nat) : Bool :=
  (defsAt s i).any fun v =>
    (usesAt s j).contains v && lastDefBefore s v j == some i

/-- The value produced by statement `i` reaches a print/plot statement along
a chain of reaching definitions (fuel bounds the chain length). -/
def valueEmitted (s : List Stmt) : Nat → Nat → Bool
  | 0, _ => false
  | fuel + 1, i =>
    (List.range s.length).any fun j =>
      flowsTo s i j && (outputAt s j || valueEmitted s fuel j)

/-- The value produced by statement `i` is printed or plotted, directly or
through later computations. -/
def emitted (s : List Stmt) (i : Nat) : Bool :=
  valueEmitted s s.length i

/-- The indices and names of the script's metric computations. -/
def metricStmts (s : List Stmt) : List (Nat × MetricName) :=
  (List.range s.length).filterMap fun i =>
    match s.get? i with
    | some ⟨.metric m, _, _⟩ => some (i, m)
    | _ => none

/-- Every metric the script computes reaches a print or plot. -/
def allMetricsEmitted (s : List Stmt) : Bool :=
  (metricStmts s).all fun p => emitted s p.1

/-- The metrics whose computed value reaches a print or plot, in order. -/
def emittedMetricNames (s : List Stmt) : List MetricName :=
  ((metricStmts s).filter fun p => emitted s p.1).map Prod.snd

/-- The metrics whose computed value never reaches a print or plot. -/
def discardedMetricNames (s : List Stmt) : List MetricName :=
  ((metricStmts s).filter fun p => !emitted s p.1).map Prod.snd

set_option maxRecDepth 10000

/-- C1: every script executes its stages in the fixed order load, split, fit,
score, plot: each of the five stages occurs, and no statement of a stage runs
before some statement of the stage listed ahead of it has run. -/
theorem c1_stage_order :
    checkStageOrder [] run201 = true ∧ allStagesOccur run201 = true ∧
    checkStageOrder [] run204 = true ∧ allStagesOccur run204 = true := by
  decide

/-- C4 counterexample: the classification-tree script does not fit exactly one
model; its run executes fifteen model-fitting calls (one main fit and one per
candidate depth 1..14 in the depth search). -/
theorem c4_tree_fits_fifteen_models :
    fitCount run204 = 15 ∧ fitCount run204 ≠ 1 := by
  decide

/-- C4 (amended): the logistic-regression script fits exactly one model, a
LogisticRegression; the classification-tree script fits fifteen models — the
main one plus one per candidate depth in the depth search — every one of them
a DecisionTreeClassifier. -/
theorem c4_fitted_models :
    fitCount run201 = 1 ∧ fittedModels run201 = [.logisticRegression] ∧
    fitCount run204 = 15 ∧ fittedModels run204 = List.replicate 15 .decisionTree := by
  decide

/-- C5 counterexample: not every computed metric is printed or plotted — in
the logistic script the accuracy score's value reaches no print/plot, and in
the tree script the standalone accuracy, precision, recall and F1 values
reach no print/plot either. -/
theorem c5_metrics_discarded :
    allMetricsEmitted run201 = false ∧
    discardedMetricNames run201 = [.accuracy] ∧
    allMetricsEmitted run204 = false ∧
    discardedMetricNames run204 = [.accuracy, .precision, .recall, .f1] := by
  decide

/-- C5 (amended): the confusion matrix is printed/plotted in both scripts and
the fourteen depth-search F1 scores are plotted in the tree script, but the
standalone accuracy of the logistic script and the standalone accuracy,
precision, recall and F1 of the tree script are computed as bare expressions
whose values reach no print or plot. -/
theorem c5_metric_emission :
    emittedMetricNames run201 = [.confusion] ∧
    discardedMetricNames run201 = [.accuracy] ∧
    emittedMetricNames run204 = .confusion :: List.replicate 14 .f1 ∧
    discardedMetricNames run204 = [.accuracy, .precision, .recall, .f1] := by
  decide

/-- C7: neither script contains an error handler, and because loading is each
script's first statement, a load failure (which, unhandled, terminates the
straight-line run at that statement) leaves no splitting, fitting, scoring or
plotting statement executed. -/
theorem c7_no_error_handling :
    hasHandler run201 = false ∧ loadFailureAbortsAll run201 = true ∧
    hasHandler run204 = false ∧ loadFailureAbortsAll run204 = true := by
  decide

/-- C10: every randomness-consuming call of both scripts passes
`random_state = 42` (two calls in the logistic script, seventeen in the tree
script once the depth loop is unrolled), and consequently the pipeline result
of either script's seeded calls does not depend on the ambient global random
state: any two runs from different ambient states coincide. -/
theorem c10_deterministic_seeding :
    randomSeedArgs run201 = List.replicate 2 (some 42) ∧
    randomSeedArgs run204 = List.replicate 17 (some 42) ∧
    (∀ (α : Type) (prim : Nat → α → α) (x : α) (a₁ a₂ : Nat),
      runSeeded prim (randomSeedArgs run201) a₁ x =
      runSeeded prim (randomSeedArgs run201) a₂ x) ∧
    (∀ (α : Type) (prim : Nat → α → α) (x : α) (a₁ a₂ : Nat),
      runSeeded prim (randomSeedArgs run204) a₁ x =
      runSeeded prim (randomSeedArgs run204) a₂ x) := by
  refine ⟨by decide, by decide, ?_, ?_⟩ <;> · intro α prim x a b; rfl

/-- Modelled from the spec: `sklearn.model_selection.train_test_split` with
`test_size = 0.2` is called at line 24 of the logistic script and line 63 of
the tree script, but its code is not part of the repository.  The test set has
⌈0.2·n⌉ rows out of n; `testCount n` is that count, ⌈n/5⌉. -/
def testCount (n : Nat) : Nat := (n + 4) / 5

/-- Modelled from the spec: the split itself.  Per the spec's glossary the
call partitions the dataset into disjoint subsets for fitting and for
held-out evaluation; it reorders the rows by the `random_state`-seeded
permutation (quantified as any permutation `shuffled` of the rows in the
theorem below) and cuts off the first `testCount` reordered rows as the test
set, the remaining rows being the training set.  Each row carries its
features together with its label, since the call splits `X` and `y` along the
same row indices. -/
def train_test_split {α : Type} (shuffled : List α) : List α × List α :=
  (shuffled.drop (testCount shuffled.length), shuffled.take (testCount shuffled.length))

/-- C2: for every dataset and every shuffling of it, the train/test split
produces two subsets that together are a permutation of the dataset's rows,
whose sizes add up to the dataset's size, and in which every row occurs
exactly as often as in the dataset (so each row lands in exactly one side and
none is duplicated across both). -/
theorem c2_split_partitions {α : Type} [DecidableEq α] (rows shuffled : List α)
    (h : shuffled.Perm rows) :
    ((train_test_split shuffled).2 ++ (train_test_split shuffled).1).Perm rows ∧
    (train_test_split shuffled).1.length + (train_test_split shuffled).2.length
      = rows.length ∧
    ∀ a : α,
      (train_test_split shuffled).1.count a + (train_test_split shuffled).2.count a
        = rows.count a := by
  have hsplit : (train_test_split shuffled).2 ++ (train_test_split shuffled).1 = shuffled :=
    List.take_append_drop _ _
  refine ⟨by rw [hsplit]; exact h, ?_, ?_⟩
  · have hl := congrArg List.length hsplit
    rw [List.length_append] at hl
    rw [Nat.add_comm, hl, h.length_eq]
  · intro a
    have hc := congrArg (List.count a) hsplit
    rw [List.count_append] at hc
    rw [Nat.add_comm, hc, h.count_eq a]

/-- C2 witness: the split of the concrete shuffled dataset `[2,0,4,1,3]`
(a permutation of `[0,1,2,3,4]`) cuts off the test set `[2]` and training set
`[0,4,1,3]`: together a permutation of the dataset, with sizes summing to 5,
and with row 4 occurring exactly once across the two sides. -/
theorem c2_split_partitions_witness :
    ((train_test_split [2, 0, 4, 1, 3]).2 ++ (train_test_split [2, 0, 4, 1, 3]).1).Perm
      [0, 1, 2, 3, 4] ∧
    (train_test_split ([2, 0, 4, 1, 3] : List Nat)).1.length +
      (train_test_split ([2, 0, 4, 1, 3] : List Nat)).2.length
      = ([0, 1, 2, 3, 4] : List Nat).length ∧
    (train_test_split ([2, 0, 4, 1, 3] : List Nat)).1.count 4 +
      (train_test_split ([2, 0, 4, 1, 3] : List Nat)).2.count 4
      = ([0, 1, 2, 3, 4] : List Nat).count 4 := by
  have h := c2_split_partitions ([0, 1, 2, 3, 4] : List Nat) [2, 0, 4, 1, 3] (by decide)
  exact ⟨h.1, h.2.1, h.2.2 4⟩

/-- Modelled from the spec: `sklearn.metrics.confusion_matrix(y_test, y_pred)`
is called at line 43 of the logistic script and line 95 of the tree script,
but its code is not part of the repository.  With the k distinct classes
numbered 0..k-1 (sklearn numbers the sorted distinct labels), the matrix is
the k-by-k table whose row i, column j holds the number of positions whose
actual label is i and whose predicted label is j. -/
def confusion_matrix (k : Nat) (yt yp : List Nat) : List (List Nat) :=
  (List.range k).map fun i =>
    (List.range k).map fun j =>
      (yt.zip yp).countP fun p => p.1 == i && p.2 == j

/-- Summing the indicator of `m` over `0..k-1` gives 0 when `m` is out of
range. -/
lemma sum_indicator_zero (m k : Nat) (h : k ≤ m) :
    ((List.range k).map fun i => if (m == i) = true then (1 : Nat) else 0).sum = 0 := by
  induction k with
  | zero => simp
  | succ k ih =>
    rw [List.range_succ, List.map_append, List.sum_append]
    have h2 : (m == k) = false := by
      have hne : m ≠ k := by omega
      simp [hne]
    rw [ih (by omega)]
    have hne : m ≠ k := by omega
    simp [hne]

/-- Summing the indicator of `m` over `0..k-1` gives 1 when `m < k`. -/
lemma sum_indicator_one (m k : Nat) (h : m < k) :
    ((List.range k).map fun i => if (m == i) = true then (1 : Nat) else 0).sum = 1 := by
  induction k with
  | zero => omega
  | succ k ih =>
    rw [List.range_succ, List.map_append, List.sum_append]
    by_cases hmk : m = k
    · subst hmk
      rw [sum_indicator_zero m m (Nat.le_refl m)]
      simp
    · have h2 : (m == k) = false := by simp [hmk]
      rw [ih (by omega)]
      simp [hmk]

/-- Counting a list by the fibers of a function with values below `k`
partitions it: the fiber counts sum to the list's length. -/
lemma countP_fiber_sum {α : Type} (f : α → Nat) (k : Nat) (l : List α)
    (h : ∀ a ∈ l, f a < k) :
    ((List.range k).map fun i => l.countP fun a => f a == i).sum = l.length := by
  induction l with
  | nil => simp
  | cons a l ih =>
    have ha : f a < k := h a (List.mem_cons_self a l)
    have hl : ∀ b ∈ l, f b < k := fun b hb => h b (List.mem_cons_of_mem a hb)
    have hmap : ((List.range k).map fun i => (a :: l).countP fun b => f b == i)
        = (List.range k).map fun i =>
            (l.countP fun b => f b == i) + if (f a == i) = true then 1 else 0 := by
      apply List.map_congr_left
      intro i _
      rw [List.countP_cons]
    rw [hmap, List.sum_map_add, ih hl, sum_indicator_one (f a) k ha]
    simp

/-- Each row of the confusion matrix sums to the number of positions whose
actual label is that row's class. -/
lemma confusion_row_sum (k i : Nat) (l : List (Nat × Nat))
    (hsnd : ∀ p ∈ l, p.2 < k) :
    ((List.range k).map fun j => l.countP fun p => p.1 == i && p.2 == j).sum
      = l.countP fun p => p.1 == i := by
  have hmap : ((List.range k).map fun j => l.countP fun p => p.1 == i && p.2 == j)
      = (List.range k).map fun j =>
          (l.filter fun p => p.1 == i).countP fun p => p.2 == j := by
    apply List.map_congr_left
    intro j _
    rw [List.countP_filter]
    apply List.countP_congr
    intro p _
    constructor
    · intro hp
      simp only [Bool.and_eq_true] at hp ⊢
      exact ⟨hp.2, hp.1⟩
    · intro hp
      simp only [Bool.and_eq_true] at hp ⊢
      exact ⟨hp.2, hp.1⟩
  rw [hmap,
    countP_fiber_sum Prod.snd k _ (fun p hp => hsnd p (List.mem_of_mem_filter hp)),
    List.countP_eq_length_filter]

/-- C3: for equal-length label sequences over classes 0..k-1, the confusion
matrix is a k-by-k table, its entry (i, j) counts the positions with actual
class i and predicted class j, and all its entries sum to the number of test
observations. -/
theorem c3_confusion_matrix (k : Nat) (yt yp : List Nat)
    (hlen : yt.length = yp.length)
    (hyt : ∀ a ∈ yt, a < k) (hyp : ∀ b ∈ yp, b < k) :
    (confusion_matrix k yt yp).length = k ∧
    (∀ row ∈ confusion_matrix k yt yp, row.length = k) ∧
    (∀ i j : Nat, i < k → j < k →
      ((confusion_matrix k yt yp).getD i []).getD j 0
        = (yt.zip yp).countP fun p => p.1 == i && p.2 == j) ∧
    ((confusion_matrix k yt yp).map List.sum).sum = yt.length := by
  have hzip : ∀ p ∈ yt.zip yp, p.1 < k ∧ p.2 < k := by
    intro p hp
    obtain ⟨a, b⟩ := p
    have hab := List.of_mem_zip hp
    exact ⟨hyt a hab.1, hyp b hab.2⟩
  refine ⟨by simp [confusion_matrix], ?_, ?_, ?_⟩
  · intro row hrow
    simp only [confusion_matrix, List.mem_map] at hrow
    obtain ⟨i, _, rfl⟩ := hrow
    simp
  · intro i j hi hj
    have hrow : (confusion_matrix k yt yp).getD i []
        = (List.range k).map fun j =>
            (yt.zip yp).countP fun p => p.1 == i && p.2 == j := by
      have hi' : i < (confusion_matrix k yt yp).length := by
        simp [confusion_matrix, hi]
      rw [List.getD_eq_getElem _ _ hi']
      simp only [confusion_matrix, List.getElem_map]
      rw [List.getElem_range]
    rw [hrow]
    have hj' : j < ((List.range k).map fun j =>
        (yt.zip yp).countP fun p => p.1 == i && p.2 == j).length := by
      simp [hj]
    rw [List.getD_eq_getElem _ _ hj', List.getElem_map, List.getElem_range]
  · rw [confusion_matrix, List.map_map]
    have hrows : (List.range k).map
          (List.sum ∘ fun i => (List.range k).map fun j =>
            (yt.zip yp).countP fun p => p.1 == i && p.2 == j)
        = (List.range k).map fun i =>
            (yt.zip yp).countP fun p => p.1 == i := by
      apply List.map_congr_left
      intro i _
      exact confusion_row_sum k i _ (fun p hp => (hzip p hp).2)
    rw [hrows, countP_fiber_sum Prod.fst k _ (fun p hp => (hzip p hp).1)]
    simp [List.length_zip, hlen]

/-- C3 witness: for the concrete labels `y_test = [0,1,1,0]`,
`y_pred = [0,1,0,0]` over 2 classes, the confusion matrix is the 2-by-2 table
`[[2,0],[1,1]]`, its entries count the actual/predicted pairs, and they sum
to the 4 test observations. -/
theorem c3_confusion_matrix_witness :
    confusion_matrix 2 [0, 1, 1, 0] [0, 1, 0, 0] = [[2, 0], [1, 1]] ∧
    (confusion_matrix 2 [0, 1, 1, 0] [0, 1, 0, 0]).length = 2 ∧
    (∀ row ∈ confusion_matrix 2 [0, 1, 1, 0] [0, 1, 0, 0], row.length = 2) ∧
    (∀ i j : Nat, i < 2 → j < 2 →
      ((confusion_matrix 2 [0, 1, 1, 0] [0, 1, 0, 0]).getD i []).getD j 0
        = (([0, 1, 1, 0] : List Nat).zip [0, 1, 0, 0]).countP
            fun p => p.1 == i && p.2 == j) ∧
    ((confusion_matrix 2 [0, 1, 1, 0] [0, 1, 0, 0]).map List.sum).sum = 4 := by
  have h := c3_confusion_matrix 2 [0, 1, 1, 0] [0, 1, 0, 0] rfl (by decide) (by decide)
  exact ⟨by decide, h.1, h.2.1, h.2.2.1, h.2.2.2⟩

/-- Modelled from the spec: a fitted scikit-learn classifier (the spec's
glossary: "a model mapping feature vectors to discrete class labels").  The
fitted state holds `classes_`, the class labels learned at fit time, and a
decision function choosing, per feature vector, the index of the class with
the best decision score (the score computation is abstract here; only which
index it picks matters for the claim). -/
structure FittedClassifier (F L : Type) where
  classes : List L
  choose : F → Nat

/-- Modelled from the spec: `clf.predict(x)` looks the chosen class index up
in `classes_`; out-of-range indices (which a real classifier never produces)
yield `none`. -/
def FittedClassifier.predict {F L : Type} (c : FittedClassifier F L) (x : F) :
    Option L :=
  c.classes[c.choose x]?

/-- Modelled from the spec: fitting on `y_train` sets `classes_` to the
distinct labels present in `y_train`. -/
def fitClassifier {F L : Type} [DecidableEq L] (ytrain : List L)
    (rule : F → Nat) : FittedClassifier F L :=
  ⟨ytrain.dedup, rule⟩

/-- C6: whatever label a classifier fitted on `y_train` predicts for any test
feature vector is one of the labels present in `y_train`. -/
theorem c6_predict_in_train_labels {F L : Type} [DecidableEq L]
    (ytrain : List L) (rule : F → Nat) (x : F) (l : L)
    (h : (fitClassifier ytrain rule).predict x = some l) :
    l ∈ ytrain :=
  List.mem_dedup.mp (List.getElem?_mem h)

/-- C6 witness: the classifier fitted on training labels `[3, 5, 5]` with a
rule choosing class index 1 predicts label 5 on input 7, and 5 is among the
training labels. -/
theorem c6_predict_in_train_labels_witness :
    (fitClassifier ([3, 5, 5] : List Nat) (fun _ : Nat => 1)).predict 7 = some 5 ∧
    (5 : Nat) ∈ [3, 5, 5] :=
  ⟨by decide, c6_predict_in_train_labels [3, 5, 5] (fun _ : Nat => 1) 7 5 (by decide)⟩

/-- Modelled from the spec: `feature_engine.encoding.OneHotEncoder` with
`top_categories = None`, `variables = ["gender"]`, `drop_last = True`
(lines 70-72 of the tree script).  Fitting learns the distinct categories of
the gender column of the data it is fitted on, and `drop_last` drops the last
learned category from the encoding. -/
def fitOHE {C : Type} [DecidableEq C] (genderCol : List C) : List C :=
  genderCol.dedup.dropLast

/-- Modelled from the spec: transforming one gender value with an
already-fitted encoder produces one boolean column per learned category. -/
def oheTransformRow {C : Type} [DecidableEq C] (cats : List C) (v : C) :
    List Bool :=
  cats.map fun c => decide (v = c)

/-- Lines 74-75 of the tree script: `X_train = ohe_enc.fit_transform(X_train)`
then `X_test = ohe_enc.transform(X_test)` — the encoder is fitted on the
training gender column only, and both columns are transformed with that
fitted encoder. -/
def encodeStep {C : Type} [DecidableEq C] (xtrainGender xtestGender : List C) :
    List C × List (List Bool) × List (List Bool) :=
  let enc := fitOHE xtrainGender
  (enc, xtrainGender.map (oheTransformRow enc), xtestGender.map (oheTransformRow enc))

/-- C8: the encoding used by the tree script's encode step is exactly the one
fitted on the training gender column: it, and the encoded training set, are
unchanged under any change of the test column, and every encoded test row has
one column per category learned from the training column. -/
theorem c8_encoder_fit_on_train_only {C : Type} [DecidableEq C]
    (xtr xt1 xt2 : List C) :
    (encodeStep xtr xt1).1 = fitOHE xtr ∧
    (encodeStep xtr xt1).1 = (encodeStep xtr xt2).1 ∧
    (encodeStep xtr xt1).2.1 = (encodeStep xtr xt2).2.1 ∧
    ((encodeStep xtr xt1).2.2).map List.length
      = List.replicate xt1.length (fitOHE xtr).length := by
  refine ⟨rfl, rfl, rfl, ?_⟩
  show (xt1.map (oheTransformRow (fitOHE xtr))).map List.length = _
  rw [List.map_map]
  have hc : (List.length ∘ oheTransformRow (fitOHE xtr))
      = Function.const C (fitOHE xtr).length := by
    funext v
    simp [oheTransformRow]
  rw [hc, List.map_const]

/-- Line 122 of the tree script: `max_depth_list = list(range(1, 15))`. -/
def max_depth_list : List Nat := List.range' 1 14

/-- Lines 123-130 of the tree script, abstracted over the per-depth F1 score
`f1`: the loop fits a tree per depth and appends `f1 depth` for each depth of
`max_depth_list` in order, so afterwards `accuracy_scores` is the list of the
fourteen scores. -/
def accuracy_scores (f1 : Nat → ℚ) : List ℚ := max_depth_list.map f1

/-- Python's built-in `max` on a list: the fold of binary max over its
elements (the `[]` case is unreachable in the script, whose list has
fourteen elements). -/
def pymax : List ℚ → ℚ
  | [] => 0
  | x :: xs => xs.foldl max x

/-- Line 132: `max_accuracy = max(accuracy_scores)`. -/
def max_accuracy (f1 : Nat → ℚ) : ℚ := pymax (accuracy_scores f1)

/-- Line 133: `max_accuracy_idx = accuracy_scores.index(max_accuracy)`;
Python's `list.index` returns the index of the first occurrence. -/
def max_accuracy_idx (f1 : Nat → ℚ) : Nat :=
  (accuracy_scores f1).indexOf (max_accuracy f1)

/-- Line 134: `optimal_depth = max_depth_list[max_accuracy_idx]`. -/
def optimal_depth (f1 : Nat → ℚ) : Nat :=
  max_depth_list.getD (max_accuracy_idx f1) 0

/-- The fold of max over a list starting at `x` is `x` or one of the list's
elements. -/
lemma foldl_max_mem (xs : List ℚ) : ∀ x : ℚ, xs.foldl max x ∈ x :: xs := by
  induction xs with
  | nil => intro x; simp
  | cons b bs ih =>
    intro x
    have h := ih (max x b)
    rcases List.mem_cons.mp h with h1 | h1
    · rcases max_choice x b with hm | hm
      · rw [List.foldl_cons, h1, hm]; simp
      · rw [List.foldl_cons, h1, hm]; simp
    · rw [List.foldl_cons]
      exact List.mem_cons_of_mem x (List.mem_cons_of_mem b h1)

/-- Every element of `x :: xs` is bounded by the fold of max over `xs`
starting at `x`. -/
lemma le_foldl_max (xs : List ℚ) : ∀ x : ℚ, ∀ a ∈ x :: xs, a ≤ xs.foldl max x := by
  induction xs with
  | nil =>
    intro x a ha
    simp at ha
    simp [ha]
  | cons b bs ih =>
    intro x a ha
    rw [List.foldl_cons]
    rcases List.mem_cons.mp ha with h1 | h1
    · subst h1
      exact le_trans (le_max_left a b) (ih (max a b) _ (List.mem_cons_self _ _))
    · rcases List.mem_cons.mp h1 with h2 | h2
      · subst h2
        exact le_trans (le_max_right x a) (ih (max x a) _ (List.mem_cons_self _ _))
      · exact ih (max x b) a (List.mem_cons_of_mem _ h2)

/-- Python's max of a nonempty list is one of its elements. -/
lemma pymax_mem (l : List ℚ) (h : l ≠ []) : pymax l ∈ l := by
  cases l with
  | nil => exact absurd rfl h
  | cons x xs => exact foldl_max_mem xs x

/-- Python's max of a list bounds every element. -/
lemma le_pymax (l : List ℚ) (a : ℚ) (h : a ∈ l) : a ≤ pymax l := by
  cases l with
  | nil => simp at h
  | cons x xs => exact le_foldl_max xs x a h

/-- The first index at which a list holds a value is at most any index at
which it holds that value. -/
lemma indexOf_le_of_getElem {α : Type} [DecidableEq α] (l : List α) (t : Nat)
    (ht : t < l.length) (a : α) (h : l[t] = a) : l.indexOf a ≤ t := by
  induction l generalizing t with
  | nil => simp at ht
  | cons b bs ih =>
    cases t with
    | zero =>
      simp at h
      subst h
      simp [List.indexOf_cons_self]
    | succ t =>
      by_cases hba : b = a
      · rw [List.indexOf_cons_eq _ hba]
        omega
      · rw [List.indexOf_cons_ne _ hba]
        have := ih t (by simpa using ht) (by simpa using h)
        omega

/-- C9: for every per-depth F1 score function, the depth the tree script's
depth search selects lies in 1..14, its score equals the maximum of the
fourteen recorded scores, every recorded score is at most that maximum, and
among the depths attaining the maximum the selected one is the smallest. -/
theorem c9_depth_search_selects_first_argmax (f1 : Nat → ℚ) :
    optimal_depth f1 ∈ max_depth_list ∧
    f1 (optimal_depth f1) = max_accuracy f1 ∧
    (∀ a ∈ accuracy_scores f1, a ≤ max_accuracy f1) ∧
    (∀ d ∈ max_depth_list, f1 d = max_accuracy f1 → optimal_depth f1 ≤ d) := by
  have hlen : (accuracy_scores f1).length = 14 := by
    simp [accuracy_scores, max_depth_list]
  have hne : accuracy_scores f1 ≠ [] := by
    intro hnil
    rw [hnil] at hlen
    simp at hlen
  have hmem : max_accuracy f1 ∈ accuracy_scores f1 := pymax_mem _ hne
  have hidx : max_accuracy_idx f1 < (accuracy_scores f1).length :=
    List.indexOf_lt_length.mpr hmem
  have hidx14 : max_accuracy_idx f1 < 14 := by rw [hlen] at hidx; exact hidx
  have hdlen : max_accuracy_idx f1 < max_depth_list.length := by
    simp [max_depth_list]
    exact hidx14
  have hopt : optimal_depth f1 = 1 + max_accuracy_idx f1 := by
    rw [optimal_depth, List.getD_eq_getElem _ _ hdlen]
    exact List.getElem_range'_1 _ _
  have hget : (accuracy_scores f1)[max_accuracy_idx f1] = max_accuracy f1 :=
    List.getElem_indexOf hidx
  have hval : f1 (optimal_depth f1) = max_accuracy f1 := by
    rw [hopt]
    have h1 : (accuracy_scores f1)[max_accuracy_idx f1]
        = f1 (max_depth_list[max_accuracy_idx f1]) := by
      simp [accuracy_scores]
    have h2 : max_depth_list[max_accuracy_idx f1] = 1 + max_accuracy_idx f1 :=
      List.getElem_range'_1 _ _
    rw [h1, h2] at hget
    exact hget
  refine ⟨?_, hval, ?_, ?_⟩
  · rw [hopt, max_depth_list, List.mem_range'_1]
    omega
  · intro a ha
    exact le_pymax _ a ha
  · intro d hd hfd
    rw [max_depth_list, List.mem_range'_1] at hd
    have ht : d - 1 < max_depth_list.length := by
      simp [max_depth_list]
      omega
    have hsl : d - 1 < (accuracy_scores f1).length := by
      rw [hlen]
      omega
    have htv : max_depth_list[d - 1] = d := by
      simp only [max_depth_list]
      rw [List.getElem_range'_1]
      omega
    have hscores : (accuracy_scores f1)[d - 1] = max_accuracy f1 := by
      have h1 : (accuracy_scores f1)[d - 1] = f1 (max_depth_list[d - 1]) := by
        simp [accuracy_scores]
      rw [h1, htv, hfd]
    have hle : (accuracy_scores f1).indexOf (max_accuracy f1) ≤ d - 1 :=
      indexOf_le_of_getElem _ (d - 1) hsl _ hscores
    rw [hopt]
    have : max_accuracy_idx f1 ≤ d - 1 := hle
    omega
/-- C9 witness: with the concrete score function giving F1 = 1 at depths 3
and 7 and 0 elsewhere, the depth search selects depth 3 — in range, attaining
the maximum score 1, and the smaller of the two tied depths (3 ≤ 7). -/
theorem c9_depth_search_witness :
    optimal_depth (fun d => if d = 3 ∨ d = 7 then (1 : ℚ) else 0) = 3 ∧
    optimal_depth (fun d => if d = 3 ∨ d = 7 then (1 : ℚ) else 0) ∈ max_depth_list ∧
    (fun d => if d = 3 ∨ d = 7 then (1 : ℚ) else 0)
        (optimal_depth (fun d => if d = 3 ∨ d = 7 then (1 : ℚ) else 0))
      = max_accuracy (fun d => if d = 3 ∨ d = 7 then (1 : ℚ) else 0) ∧
    optimal_depth (fun d => if d = 3 ∨ d = 7 then (1 : ℚ) else 0) ≤ 7 := by
  have h := c9_depth_search_selects_first_argmax
    (fun d => if d = 3 ∨ d = 7 then (1 : ℚ) else 0)
  exact ⟨by decide, h.1, h.2.1, h.2.2.2 7 (by decide) (by decide)⟩
